import Mathlib

/-!
Verification of the etl-drone-sense connector.

The connector polls a drone-telemetry API and turns each `DroneSenseLocation`
record into one output feature (`Task.control` in `src/task.ts`).  This file
gives a shallow embedding of that transformation together with the two
geometry helpers `calculateBearing` and `calculateDistance`, and proves the
specified properties about them.

Modelling conventions:
* JavaScript numbers appearing in input records are embedded as rationals
  (every finite IEEE-754 double is a rational, and the connector performs no
  arithmetic on record fields before comparing them); the trigonometric
  helpers are embedded over the reals.
* The JavaScript remainder operator `%` (round-toward-zero remainder) is
  embedded as `jsRem`, and `Math.atan2` as `atan2` via `Complex.arg`, which
  has the same range `(-pi, pi]` and the same value `0` at `(0, 0)`.
* The `for ... continue ... break` loop over `record.sensors` sets the
  `video` attachment and pushes exactly one link for the first sensor whose
  `rtsp_url` is truthy, then breaks; it is embedded with `List.find?`.
* The fetch / schema-validation step is performed by the external etl
  library (`droneres.typed`); `control` merely awaits it, so a thrown error
  propagates before any feature is built or submitted.  That control flow is
  embedded with `Except`.
-/

open Real

namespace DroneSense

/-- JavaScript truthiness of an optional string field: `undefined` and the
empty string are falsy (this is the test `!sensor.rtsp_url` in the source). -/
def truthyStr : Option String → Bool
  | none => false
  | some s => s != ""

/-- One entry of the `sensors` array of the `DroneSenseLocation` schema
(`src/task.ts` lines 66-71): `video_url` and `rtsp_url` are optional. -/
structure Sensor where
  id : String
  name : String
  video_url : Option String
  rtsp_url : Option String
deriving DecidableEq

/-- The `DroneSenseLocation` input record (`src/task.ts` lines 52-72). -/
structure DroneSenseLocation where
  id : String
  callSign : String
  missionName : String
  model : String
  latitude : ℚ
  longitude : ℚ
  lastUpdate : ℚ
  altitudeAgl : ℚ
  altitudeMsl : ℚ
  speed : ℚ
  heading : ℚ
  spoiLat : ℚ
  spoiLng : ℚ
  sensors : List Sensor
deriving DecidableEq

/-- The video connection profile built at `src/task.ts` lines 152-164. -/
structure VideoConnection where
  uid : String
  networkTimeout : ℤ
  path : String
  protocol : String
  bufferTime : ℤ
  address : String
  port : ℤ
  roverPort : ℤ
  rtspReliable : ℤ
  ignoreEmbeddedKLV : Bool
  «alias» : String
deriving DecidableEq

/-- The `video` attachment built at `src/task.ts` lines 148-165. -/
structure VideoAttachment where
  uid : String
  sensor : String
  url : String
  connection : VideoConnection
deriving DecidableEq

/-- One entry of `feat.properties.links` (`src/task.ts` lines 167-173).
The `url` field is `sensor.video_url`, which may be absent. -/
structure LinkEntry where
  uid : String
  relation : String
  type : String
  url : Option String
  remarks : String
deriving DecidableEq

/-- The sensor field-of-view cone attachment (`src/task.ts` lines 191-208).
`azimuth` and `range` are computed real numbers; the rest are fixed
literals. -/
structure SensorFov where
  azimuth : ℝ
  fov : ℝ
  vfov : ℝ
  range : ℝ
  elevation : ℝ
  roll : ℝ
  displayMagneticReference : ℝ
  strokeColor : ℤ
  strokeWeight : ℝ
  fovRed : ℝ
  fovGreen : ℝ
  fovBlue : ℝ
  fovAlpha : ℝ
  rangeLines : ℝ
  rangeLineStrokeColor : ℤ
  rangeLineStrokeWeight : ℝ

/-- The point geometry of an output feature (`src/task.ts` lines 137-140). -/
structure PointGeometry where
  type : String
  coordinates : List ℚ
deriving DecidableEq

/-- The properties bag of an output feature (`src/task.ts` lines 127-136,
plus the optional `video` and `sensor` attachments added below). -/
structure FeatProperties where
  type : String
  callsign : String
  speed : ℚ
  course : ℚ
  links : List LinkEntry
  metadata : DroneSenseLocation
  video : Option VideoAttachment
  sensor : Option SensorFov

/-- One output feature (`src/task.ts` lines 124-141). -/
structure Feat where
  id : String
  type : String
  properties : FeatProperties
  geometry : PointGeometry

/-! ### Geometry helpers (`src/task.ts` lines 14-50) -/

/-- JavaScript `Math.atan2 y x`: the angle of the point `(x, y)`, in
`(-pi, pi]`, with `atan2 0 0 = 0`.  `Complex.arg` has exactly this
behaviour. -/
noncomputable def atan2 (y x : ℝ) : ℝ := Complex.arg ⟨x, y⟩

/-- The JavaScript remainder `a % b`: `a - b * trunc (a / b)`, where
`trunc` rounds toward zero.  (`calculateBearing` only ever applies it with a
positive dividend and divisor `360`.) -/
noncomputable def jsRem (a b : ℝ) : ℝ :=
  if 0 ≤ a / b then a - b * ⌊a / b⌋ else a - b * ⌈a / b⌉

/-- `calculateBearing` (`src/task.ts` lines 14-27): initial compass bearing
in degrees from point 1 to point 2, normalized via `(bearing + 360) % 360`. -/
noncomputable def calculateBearing (lat1 lon1 lat2 lon2 : ℝ) : ℝ :=
  let lat1Rad := lat1 * π / 180
  let lat2Rad := lat2 * π / 180
  let deltaLon := (lon2 - lon1) * π / 180
  let x := Real.sin deltaLon * Real.cos lat2Rad
  let y := Real.cos lat1Rad * Real.sin lat2Rad -
    Real.sin lat1Rad * Real.cos lat2Rad * Real.cos deltaLon
  let bearing := atan2 x y * 180 / π
  jsRem (bearing + 360) 360

/-- `calculateDistance` (`src/task.ts` lines 37-50): Haversine great-circle
distance in meters with mean Earth radius 6371000 m, in the two-argument
arctangent form. -/
noncomputable def calculateDistance (lat1 lon1 lat2 lon2 : ℝ) : ℝ :=
  let R : ℝ := 6371000
  let lat1Rad := lat1 * π / 180
  let lat2Rad := lat2 * π / 180
  let deltaLat := (lat2 - lat1) * π / 180
  let deltaLon := (lon2 - lon1) * π / 180
  let a := Real.sin (deltaLat / 2) ^ 2 +
    Real.cos lat1Rad * Real.cos lat2Rad * Real.sin (deltaLon / 2) ^ 2
  let c := 2 * atan2 (Real.sqrt a) (Real.sqrt (1 - a))
  R * c

/-! ### The per-record transformation (`Task.control`, lines 123-212) -/

/-- The `video` attachment built for the selected sensor
(`src/task.ts` lines 148-165).  At the point of construction
`sensor.rtsp_url` is a truthy string, so `getD ""` returns that string. -/
def videoFor (record : DroneSenseLocation) (s : Sensor) : VideoAttachment :=
  { uid := record.id
    sensor := record.callSign ++ "-camera"
    url := s.rtsp_url.getD ""
    connection :=
      { uid := record.id
        networkTimeout := 12000
        path := ""
        protocol := "raw"
        bufferTime := -1
        address := s.rtsp_url.getD ""
        port := -1
        roverPort := -1
        rtspReliable := 0
        ignoreEmbeddedKLV := false
        «alias» := record.callSign } }

/-- The link entry pushed for the selected sensor (`src/task.ts` lines
167-173); its `url` is the sensor's `video_url`, possibly absent. -/
def linkFor (record : DroneSenseLocation) (s : Sensor) : LinkEntry :=
  { uid := record.id
    relation := "r-u"
    type := "text/html"
    url := s.video_url
    remarks := "DroneSense Viewer" }

/-- The sensor loop (`src/task.ts` lines 143-177): when `sensors` is
non-empty, scan in order, skip sensors whose `rtsp_url` is falsy, and for the
first truthy one set the `video` attachment, push one link, and break. -/
def videoAndLinks (record : DroneSenseLocation) :
    Option VideoAttachment × List LinkEntry :=
  if record.sensors.length > 0 then
    match record.sensors.find? (fun s => truthyStr s.rtsp_url) with
    | some s => (some (videoFor record s), [linkFor record s])
    | none => (none, [])
  else (none, [])

/-- The field-of-view cone (`src/task.ts` lines 179-209): added only when
both `spoiLat` and `spoiLng` differ from the sentinel `0`. -/
noncomputable def sensorFovFor (record : DroneSenseLocation) : Option SensorFov :=
  if record.spoiLat ≠ 0 ∧ record.spoiLng ≠ 0 then
    some
      { azimuth := calculateBearing (record.latitude : ℝ) (record.longitude : ℝ)
          (record.spoiLat : ℝ) (record.spoiLng : ℝ)
        fov := 45
        vfov := 45
        range := calculateDistance (record.latitude : ℝ) (record.longitude : ℝ)
          (record.spoiLat : ℝ) (record.spoiLng : ℝ)
        elevation := 0
        roll := 0
        displayMagneticReference := 0
        strokeColor := -16777216
        strokeWeight := 0.5
        fovRed := 1.0
        fovGreen := 0.5
        fovBlue := 0.0
        fovAlpha := 0.3
        rangeLines := 100
        rangeLineStrokeColor := -16777216
        rangeLineStrokeWeight := 1.0 }
  else none

/-- The body of the `for (const record of records)` loop
(`src/task.ts` lines 124-211): one feature per record. -/
noncomputable def transformRecord (record : DroneSenseLocation) : Feat :=
  let vl := videoAndLinks record
  { id := record.id
    type := "Feature"
    properties :=
      { type := "a-f-A-M-H-Q"
        callsign := record.callSign
        speed := record.speed
        course := record.heading
        links := vl.2
        metadata := record
        video := vl.1
        sensor := sensorFovFor record }
    geometry :=
      { type := "Point"
        coordinates := [record.longitude, record.latitude, record.altitudeAgl] } }

/-- The accumulation loop: `fc.features.push(feat)` for each record in
order (`src/task.ts` lines 123-212). -/
noncomputable def buildFeatures : List DroneSenseLocation → List Feat
  | [] => []
  | record :: rest => transformRecord record :: buildFeatures rest

/-! ### Poll cycle orchestration (`Task.control`, lines 104-215) -/

/-- Failure of the fetch or of the schema validation performed by the
external etl library. -/
inductive CycleError where
  | fetchFailed : CycleError
  | validationFailed : CycleError
deriving DecidableEq

/-- Modelled from the spec: the schema-validation collaborator
(`droneres.typed`, provided by the external etl library, not part of this
repository) validates the fetched array against `Type.Array(DroneSenseLocation)`
and rejects the whole array if any element fails to match the declared shape
(no partial acceptance).  A raw element is embedded as `some record` when it
matches the shape and `none` when a required field is missing. -/
def validateAll : List (Option DroneSenseLocation) →
    Except CycleError (List DroneSenseLocation)
  | [] => .ok []
  | none :: _ => .error .validationFailed
  | some record :: rest => (validateAll rest).map (record :: ·)

/-- The poll cycle (`Task.control`): await the fetch, validate the array,
transform every record, then submit.  A thrown error at the fetch or
validation step propagates before any feature is built, so the submit call
(`this.submit(fc)`) is never reached; `.ok feats` means `feats` was
submitted as one unit. -/
noncomputable def pollCycle
    (fetched : Except CycleError (List (Option DroneSenseLocation))) :
    Except CycleError (List Feat) :=
  match fetched with
  | .error e => .error e
  | .ok raws =>
    match validateAll raws with
    | .error e => .error e
    | .ok records => .ok (buildFeatures records)

/-! ### Concrete records used to evaluate the transformation -/

/-- A sensor carrying only a viewer page URL (`rtsp_url` absent). -/
def sensorOnlyVideo : Sensor :=
  { id := "s1", name := "cam1", video_url := some "x", rtsp_url := none }

/-- A sensor carrying both a viewer page URL and a raw stream URL. -/
def sensorBoth : Sensor :=
  { id := "s2", name := "cam2", video_url := some "y", rtsp_url := some "rtsp://a" }

/-- A sensor carrying only a raw stream URL (`video_url` absent). -/
def sensorRtspOnly : Sensor :=
  { id := "s3", name := "cam3", video_url := none, rtsp_url := some "rtsp://a" }

/-- A drone record at the origin with the given SPOI and sensor list. -/
def mkRecord (spoiLat spoiLng : ℚ) (sensors : List Sensor) : DroneSenseLocation :=
  { id := "drone-1", callSign := "HAWK1", missionName := "m1", model := "M3",
    latitude := 0, longitude := 0, lastUpdate := 1700000000, altitudeAgl := 100,
    altitudeMsl := 200, speed := 5, heading := 90, spoiLat := spoiLat,
    spoiLng := spoiLng, sensors := sensors }

/-- The record of the spec's worked example: first sensor lacks `rtsp_url`,
second has both URLs, SPOI at `(10, 20)`, drone at `(0, 0)`. -/
def exSpec : DroneSenseLocation := mkRecord 10 20 [sensorOnlyVideo, sensorBoth]

/-- A record whose only sensor has an `rtsp_url` but no `video_url`. -/
def exRtspOnly : DroneSenseLocation := mkRecord 0 0 [sensorRtspOnly]

/-- A record whose only sensor has a `video_url` but no `rtsp_url`, with
`spoiLat = 0, spoiLng = 5` (sentinel suppression). -/
def exVideoOnly : DroneSenseLocation := mkRecord 0 5 [sensorOnlyVideo]

/-! ### Helper lemmas -/

/-- Projections of `transformRecord`: the links list is what the sensor loop
produced. -/
theorem transformRecord_links (record : DroneSenseLocation) :
    (transformRecord record).properties.links = (videoAndLinks record).2 := rfl

/-- Projections of `transformRecord`: the video attachment is what the
sensor loop produced. -/
theorem transformRecord_video (record : DroneSenseLocation) :
    (transformRecord record).properties.video = (videoAndLinks record).1 := rfl

/-- Projections of `transformRecord`: the cone is `sensorFovFor`. -/
theorem transformRecord_sensor (record : DroneSenseLocation) :
    (transformRecord record).properties.sensor = sensorFovFor record := rfl

/-- The outer `sensors.length > 0` guard in the source is redundant:
`videoAndLinks` is determined by the first sensor with a truthy `rtsp_url`. -/
theorem videoAndLinks_find? (record : DroneSenseLocation) :
    videoAndLinks record =
      match record.sensors.find? (fun s => truthyStr s.rtsp_url) with
      | some s => (some (videoFor record s), [linkFor record s])
      | none => (none, []) := by
  cases hs : record.sensors with
  | nil => simp [videoAndLinks, hs]
  | cons a l => simp [videoAndLinks, hs]

/-- `List.find?` returns the head of the first satisfying suffix. -/
theorem find?_of_prefix_false {α : Type} {p : α → Bool} (pre post : List α) (s : α)
    (hpre : ∀ t ∈ pre, p t = false) (hs : p s = true) :
    (pre ++ s :: post).find? p = some s := by
  induction pre with
  | nil => simpa using List.find?_cons_of_pos post hs
  | cons a l ih =>
    have ha : ¬p a = true := by simp [hpre a (by simp)]
    simpa using (List.find?_cons_of_neg (l ++ s :: post) ha).trans
      (ih (fun t ht => hpre t (by simp [ht])))

/-- The accumulation loop is a map over the record list. -/
theorem buildFeatures_eq_map (records : List DroneSenseLocation) :
    buildFeatures records = records.map transformRecord := by
  induction records with
  | nil => rfl
  | cons r rest ih => simp [buildFeatures, ih]

/-- All-or-nothing validation: one malformed element rejects the array. -/
theorem validateAll_error_of_none {raws : List (Option DroneSenseLocation)}
    (h : none ∈ raws) : validateAll raws = .error .validationFailed := by
  induction raws with
  | nil => cases h
  | cons a rest ih =>
    cases a with
    | none => rfl
    | some r =>
      have hr : none ∈ rest := by simpa using h
      show (validateAll rest).map (r :: ·) = _
      rw [ih hr]
      rfl

/-- The two-argument arctangent always lands in `(-pi, pi]`. -/
theorem atan2_mem_Ioc (y x : ℝ) : atan2 y x ∈ Set.Ioc (-π) π :=
  Complex.arg_mem_Ioc _

/-- For a nonnegative dividend and positive divisor, the JavaScript
remainder lies in `[0, b)`. -/
theorem jsRem_mem_Ico (a b : ℝ) (hb : 0 < b) (ha : 0 ≤ a) :
    jsRem a b ∈ Set.Ico 0 b := by
  have hbne : b ≠ 0 := ne_of_gt hb
  have hdiv : 0 ≤ a / b := div_nonneg ha hb.le
  have h1 : (⌊a / b⌋ : ℝ) ≤ a / b := Int.floor_le _
  have h2 : a / b < ⌊a / b⌋ + 1 := Int.lt_floor_add_one _
  have he : b * (a / b) = a := by field_simp
  have h1b : b * (⌊a / b⌋ : ℝ) ≤ b * (a / b) :=
    mul_le_mul_of_nonneg_left h1 hb.le
  have h2b : b * (a / b) < b * ((⌊a / b⌋ : ℝ) + 1) :=
    mul_lt_mul_of_pos_left h2 hb
  unfold jsRem
  rw [if_pos hdiv]
  constructor
  · nlinarith
  · nlinarith

/-- Converting an angle of `(-pi, pi]` to degrees lands in `(-180, 180]`. -/
theorem degScale_mem (t : ℝ) (h : t ∈ Set.Ioc (-π) π) :
    t * 180 / π ∈ Set.Ioc (-180) 180 := by
  have hp := Real.pi_pos
  constructor
  · rw [lt_div_iff₀ hp]
    nlinarith [h.1]
  · rw [div_le_iff₀ hp]
    nlinarith [h.2]

/-- The normalized bearing always lies in the half-open range `[0, 360)`. -/
theorem calculateBearing_mem_Ico (lat1 lon1 lat2 lon2 : ℝ) :
    calculateBearing lat1 lon1 lat2 lon2 ∈ Set.Ico 0 360 := by
  simp only [calculateBearing]
  have h := degScale_mem _ (atan2_mem_Ioc
    (Real.sin ((lon2 - lon1) * π / 180) * Real.cos (lat2 * π / 180))
    (Real.cos (lat1 * π / 180) * Real.sin (lat2 * π / 180) -
      Real.sin (lat1 * π / 180) * Real.cos (lat2 * π / 180) *
        Real.cos ((lon2 - lon1) * π / 180)))
  exact jsRem_mem_Ico (atan2
    (Real.sin ((lon2 - lon1) * π / 180) * Real.cos (lat2 * π / 180))
    (Real.cos (lat1 * π / 180) * Real.sin (lat2 * π / 180) -
      Real.sin (lat1 * π / 180) * Real.cos (lat2 * π / 180) *
        Real.cos ((lon2 - lon1) * π / 180)) * 180 / π + 360) 360
    (by norm_num) (by linarith [h.1])

/-- On identical points both arctangent arguments vanish, `atan2 0 0 = 0`,
and `(0 + 360) % 360 = 0`. -/
theorem calculateBearing_self (lat lon : ℝ) :
    calculateBearing lat lon lat lon = 0 := by
  simp only [calculateBearing]
  rw [sub_self, zero_mul, zero_div, Real.sin_zero, Real.cos_zero, zero_mul,
    mul_one]
  rw [mul_comm (Real.sin (lat * π / 180)) (Real.cos (lat * π / 180)), sub_self]
  have h00 : atan2 0 0 = 0 := by
    unfold atan2
    have hz : (⟨0, 0⟩ : ℂ) = 0 := by
      apply Complex.ext <;> simp
    rw [hz, Complex.arg_zero]
  rw [h00, zero_mul, zero_div, zero_add]
  unfold jsRem
  rw [div_self (by norm_num : (360:ℝ) ≠ 0)]
  norm_num

/-- The Haversine quantity `a` is symmetric in the two points (the squared
sines absorb the sign of the coordinate differences), so the distance is. -/
theorem calculateDistance_symm (lat1 lon1 lat2 lon2 : ℝ) :
    calculateDistance lat1 lon1 lat2 lon2 = calculateDistance lat2 lon2 lat1 lon1 := by
  simp only [calculateDistance]
  have hsin : ∀ u v : ℝ, Real.sin ((u - v) * π / 180 / 2) ^ 2 =
      Real.sin ((v - u) * π / 180 / 2) ^ 2 := by
    intro u v
    rw [show (u - v) * π / 180 / 2 = -((v - u) * π / 180 / 2) from by ring,
      Real.sin_neg]
    ring
  have ha : Real.sin ((lat2 - lat1) * π / 180 / 2) ^ 2 +
      Real.cos (lat1 * π / 180) * Real.cos (lat2 * π / 180) *
        Real.sin ((lon2 - lon1) * π / 180 / 2) ^ 2 =
      Real.sin ((lat1 - lat2) * π / 180 / 2) ^ 2 +
      Real.cos (lat2 * π / 180) * Real.cos (lat1 * π / 180) *
        Real.sin ((lon1 - lon2) * π / 180 / 2) ^ 2 := by
    rw [hsin lat2 lat1, hsin lon2 lon1]
    ring
  rw [ha]

/-- On identical points `a = 0`, so `c = 2 * atan2 0 1 = 0` and the
distance is `0`. -/
theorem calculateDistance_self (lat lon : ℝ) :
    calculateDistance lat lon lat lon = 0 := by
  have h01 : atan2 0 1 = 0 := by
    unfold atan2
    have hz : (⟨1, 0⟩ : ℂ) = 1 := by
      apply Complex.ext <;> simp
    rw [hz, Complex.arg_one]
  simp only [calculateDistance]
  rw [show (lat - lat) * π / 180 / 2 = 0 from by rw [sub_self]; ring,
    show (lon - lon) * π / 180 / 2 = 0 from by rw [sub_self]; ring]
  simp [h01]

/-! ### The claims -/

/-- C1, counterexample: on a record whose only sensor has an `rtsp_url` but
no `video_url`, the selected sensor lacks a `video_url` and yet a viewer
link entry is appended (with an absent `url`), so the link is not appended
"only if that same selected sensor also has a video_url". -/
theorem link_pushed_without_video_url :
    exRtspOnly.sensors.find? (fun t => truthyStr t.rtsp_url) = some sensorRtspOnly ∧
    sensorRtspOnly.video_url = none ∧
    (transformRecord exRtspOnly).properties.links =
      [{ uid := "drone-1", relation := "r-u", type := "text/html",
         url := none, remarks := "DroneSense Viewer" }] :=
  ⟨rfl, rfl, rfl⟩

/-- C1, amended: whenever a sensor is selected (the first in list order with
a non-empty `rtsp_url`), one viewer link entry (relation `"r-u"`, media type
`text/html`, `url` equal to that sensor's `video_url` — which may be absent —
and the fixed viewer remark) is appended regardless of whether the selected
sensor has a `video_url`; and if no sensor has a non-empty `rtsp_url`, the
feature gets no video attachment and no link entries, even when sensors
carry `video_url`s. -/
theorem viewer_link_follows_selected_sensor (record : DroneSenseLocation) :
    (∀ s, record.sensors.find? (fun t => truthyStr t.rtsp_url) = some s →
      (transformRecord record).properties.links =
        [{ uid := record.id, relation := "r-u", type := "text/html",
           url := s.video_url, remarks := "DroneSense Viewer" }]) ∧
    (record.sensors.find? (fun t => truthyStr t.rtsp_url) = none →
      (transformRecord record).properties.video = none ∧
      (transformRecord record).properties.links = []) := by
  constructor
  · intro s hs
    rw [transformRecord_links, videoAndLinks_find?, hs]
    rfl
  · intro hn
    refine ⟨?_, ?_⟩
    · rw [transformRecord_video, videoAndLinks_find?, hn]
    · rw [transformRecord_links, videoAndLinks_find?, hn]

/-- C1, witness: the amended statement evaluated on a record whose only
sensor has a raw stream URL but no viewer URL, and on a record whose only
sensor has a viewer URL but no raw stream URL. -/
theorem viewer_link_follows_selected_sensor_witness :
    (transformRecord exRtspOnly).properties.links =
      [{ uid := exRtspOnly.id, relation := "r-u", type := "text/html",
         url := sensorRtspOnly.video_url, remarks := "DroneSense Viewer" }] ∧
    (transformRecord exVideoOnly).properties.video = none ∧
    (transformRecord exVideoOnly).properties.links = [] :=
  ⟨(viewer_link_follows_selected_sensor exRtspOnly).1 sensorRtspOnly rfl,
   (viewer_link_follows_selected_sensor exVideoOnly).2 rfl⟩

/-- C2: the transformer scans `sensors` in list order and selects the first
sensor whose `rtsp_url` is a non-empty string — every earlier sensor fails
the truthiness test, scanning stops there, and the feature's `video.url` is
that sensor's `rtsp_url`; in particular, on the spec's worked example the
output has `video.url = "rtsp://a"` and exactly one link with
`url = "y"`. -/
theorem first_rtsp_sensor_selected (record : DroneSenseLocation)
    (pre post : List Sensor) (s : Sensor)
    (hsens : record.sensors = pre ++ s :: post)
    (hpre : ∀ t ∈ pre, truthyStr t.rtsp_url = false)
    (hs : truthyStr s.rtsp_url = true) :
    (∃ u, s.rtsp_url = some u ∧
      (transformRecord record).properties.video = some (videoFor record s) ∧
      (videoFor record s).url = u) ∧
    (transformRecord exSpec).properties.video.map VideoAttachment.url = some "rtsp://a" ∧
    (transformRecord exSpec).properties.links.map LinkEntry.url = [some "y"] := by
  have hfind : record.sensors.find? (fun t => truthyStr t.rtsp_url) = some s := by
    rw [hsens]
    exact find?_of_prefix_false pre post s hpre hs
  obtain ⟨u, hu⟩ : ∃ u, s.rtsp_url = some u := by
    cases h : s.rtsp_url with
    | none => rw [h] at hs; exact absurd hs (by simp [truthyStr])
    | some u => exact ⟨u, rfl⟩
  refine ⟨⟨u, hu, ?_, ?_⟩, rfl, rfl⟩
  · rw [transformRecord_video, videoAndLinks_find?, hfind]
  · simp [videoFor, hu]

/-- C2, witness: applied to the spec's worked example, where the first
sensor lacks `rtsp_url` and the second has `rtsp_url = "rtsp://a"`. -/
theorem first_rtsp_sensor_selected_witness :
    (∃ u, sensorBoth.rtsp_url = some u ∧
      (transformRecord exSpec).properties.video = some (videoFor exSpec sensorBoth) ∧
      (videoFor exSpec sensorBoth).url = u) ∧
    (transformRecord exSpec).properties.video.map VideoAttachment.url = some "rtsp://a" ∧
    (transformRecord exSpec).properties.links.map LinkEntry.url = [some "y"] :=
  first_rtsp_sensor_selected exSpec [sensorOnlyVideo] [] sensorBoth rfl
    (by decide) (by decide)

/-- C3: the feature carries a field-of-view cone exactly when both `spoiLat`
and `spoiLng` are non-zero; the cone's `azimuth` is `calculateBearing` and
its `range` is `calculateDistance` from the drone position to the SPOI, and
its horizontal and vertical fields of view are both 45. -/
theorem sensor_fov_cone_iff (record : DroneSenseLocation) :
    (record.spoiLat ≠ 0 ∧ record.spoiLng ≠ 0 →
      (transformRecord record).properties.sensor = some
        { azimuth := calculateBearing (record.latitude : ℝ) (record.longitude : ℝ)
            (record.spoiLat : ℝ) (record.spoiLng : ℝ)
          fov := 45
          vfov := 45
          range := calculateDistance (record.latitude : ℝ) (record.longitude : ℝ)
            (record.spoiLat : ℝ) (record.spoiLng : ℝ)
          elevation := 0
          roll := 0
          displayMagneticReference := 0
          strokeColor := -16777216
          strokeWeight := 0.5
          fovRed := 1.0
          fovGreen := 0.5
          fovBlue := 0.0
          fovAlpha := 0.3
          rangeLines := 100
          rangeLineStrokeColor := -16777216
          rangeLineStrokeWeight := 1.0 }) ∧
    (¬(record.spoiLat ≠ 0 ∧ record.spoiLng ≠ 0) →
      (transformRecord record).properties.sensor = none) := by
  constructor
  · intro h
    rw [transformRecord_sensor]
    unfold sensorFovFor
    rw [if_pos h]
  · intro h
    rw [transformRecord_sensor]
    unfold sensorFovFor
    rw [if_neg h]

/-- C3, witness: with SPOI `(10, 20)` the cone is produced with the computed
azimuth and range; with SPOI `(0, 5)` it is suppressed. -/
theorem sensor_fov_cone_iff_witness :
    (transformRecord exSpec).properties.sensor = some
      { azimuth := calculateBearing (exSpec.latitude : ℝ) (exSpec.longitude : ℝ)
          (exSpec.spoiLat : ℝ) (exSpec.spoiLng : ℝ)
        fov := 45
        vfov := 45
        range := calculateDistance (exSpec.latitude : ℝ) (exSpec.longitude : ℝ)
          (exSpec.spoiLat : ℝ) (exSpec.spoiLng : ℝ)
        elevation := 0
        roll := 0
        displayMagneticReference := 0
        strokeColor := -16777216
        strokeWeight := 0.5
        fovRed := 1.0
        fovGreen := 0.5
        fovBlue := 0.0
        fovAlpha := 0.3
        rangeLines := 100
        rangeLineStrokeColor := -16777216
        rangeLineStrokeWeight := 1.0 } ∧
    (transformRecord exVideoOnly).properties.sensor = none :=
  ⟨(sensor_fov_cone_iff exSpec).1 (by decide),
   (sensor_fov_cone_iff exVideoOnly).2 (by decide)⟩

/-- C4: the poll cycle produces exactly one feature per validated record, in
order (the loop is a map), with `id` preserved, a point geometry at
`[longitude, latitude, altitudeAgl]`, the fixed classification constant,
`callsign`, `speed`, `course = heading`, and the whole record as
metadata. -/
theorem one_feature_per_record :
    (∀ records : List DroneSenseLocation,
      buildFeatures records = records.map transformRecord) ∧
    ∀ record : DroneSenseLocation,
      (transformRecord record).id = record.id ∧
      (transformRecord record).type = "Feature" ∧
      (transformRecord record).geometry =
        { type := "Point",
          coordinates := [record.longitude, record.latitude, record.altitudeAgl] } ∧
      (transformRecord record).properties.type = "a-f-A-M-H-Q" ∧
      (transformRecord record).properties.callsign = record.callSign ∧
      (transformRecord record).properties.speed = record.speed ∧
      (transformRecord record).properties.course = record.heading ∧
      (transformRecord record).properties.metadata = record :=
  ⟨buildFeatures_eq_map, fun _ => ⟨rfl, rfl, rfl, rfl, rfl, rfl, rfl, rfl⟩⟩

/-- C7: a failed fetch propagates unchanged; an array containing a record
that misses a required field aborts the whole cycle; and a submission
happens only when the whole input array validated, in which case exactly the
transformed records are submitted. -/
theorem poll_cycle_atomic :
    (∀ e, pollCycle (.error e) = .error e) ∧
    (∀ raws, none ∈ raws → pollCycle (.ok raws) = .error .validationFailed) ∧
    (∀ raws feats, pollCycle (.ok raws) = .ok feats →
      ∃ records, validateAll raws = .ok records ∧ feats = buildFeatures records) := by
  refine ⟨fun e => rfl, ?_, ?_⟩
  · intro raws h
    show (match validateAll raws with
      | .error e => Except.error e
      | .ok records => Except.ok (buildFeatures records)) = _
    rw [validateAll_error_of_none h]
  · intro raws feats
    show (match validateAll raws with
      | .error e => Except.error e
      | .ok records => Except.ok (buildFeatures records)) = .ok feats → _
    cases hv : validateAll raws with
    | error e => exact fun h => Except.noConfusion h
    | ok records => exact fun h => ⟨records, rfl, (Except.ok.inj h).symm⟩

/-- C7, witness: a failed fetch yields the same error and no submission; a
batch with one malformed record aborts; a fully valid batch submits exactly
its transforms. -/
theorem poll_cycle_atomic_witness :
    pollCycle (.error .fetchFailed) = .error .fetchFailed ∧
    pollCycle (.ok [some exSpec, none]) = .error .validationFailed ∧
    ∃ records, validateAll [some exSpec] = .ok records ∧
      buildFeatures [exSpec] = buildFeatures records :=
  ⟨poll_cycle_atomic.1 .fetchFailed,
   poll_cycle_atomic.2.1 [some exSpec, none] (by simp),
   poll_cycle_atomic.2.2 [some exSpec] (buildFeatures [exSpec]) rfl⟩

/-- C8: every feature's links list has length at most one, it is a singleton
exactly when the feature has a video attachment, and every link's `uid` is
the record's id. -/
theorem links_length_video_invariant (record : DroneSenseLocation) :
    (transformRecord record).properties.links.length ≤ 1 ∧
    ((transformRecord record).properties.video.isSome ↔
      (transformRecord record).properties.links.length = 1) ∧
    ∀ entry ∈ (transformRecord record).properties.links, entry.uid = record.id := by
  cases h : record.sensors.find? (fun t => truthyStr t.rtsp_url) with
  | none => simp [transformRecord_links, transformRecord_video, videoAndLinks_find?, h]
  | some s =>
    simp [transformRecord_links, transformRecord_video, videoAndLinks_find?, h, linkFor]

/-- C8, witness: evaluated on the spec's worked example, whose links list is
the singleton viewer link with `uid = "drone-1"`. -/
theorem links_length_video_invariant_witness :
    (transformRecord exSpec).properties.links.length ≤ 1 ∧
    (linkFor exSpec sensorBoth).uid = exSpec.id :=
  ⟨(links_length_video_invariant exSpec).1,
   (links_length_video_invariant exSpec).2.2 (linkFor exSpec sensorBoth) (by decide)⟩

/-- C9: every video attachment is internally consistent: its `uid` and its
connection's `uid` equal the record id, the connection address equals the
video url, the sensor label is the callsign with `"-camera"` appended, the
connection alias is the callsign, and the url is the selected sensor's
`rtsp_url`. -/
theorem video_attachment_consistent (record : DroneSenseLocation)
    (v : VideoAttachment)
    (hv : (transformRecord record).properties.video = some v) :
    v.uid = record.id ∧ v.connection.uid = record.id ∧
    v.connection.address = v.url ∧
    v.sensor = record.callSign ++ "-camera" ∧
    v.connection.«alias» = record.callSign ∧
    ∃ s, record.sensors.find? (fun t => truthyStr t.rtsp_url) = some s ∧
      s.rtsp_url = some v.url := by
  rw [transformRecord_video, videoAndLinks_find?] at hv
  cases h : record.sensors.find? (fun t => truthyStr t.rtsp_url) with
  | none =>
    rw [h] at hv
    exact Option.noConfusion hv
  | some s =>
    rw [h] at hv
    have hveq : v = videoFor record s := (Option.some.inj hv).symm
    subst hveq
    have hp : truthyStr s.rtsp_url = true := by
      have hp0 := List.find?_some h
      simpa using hp0
    obtain ⟨u, hu⟩ : ∃ u, s.rtsp_url = some u := by
      cases hru : s.rtsp_url with
      | none => rw [hru] at hp; exact absurd hp (by simp [truthyStr])
      | some u => exact ⟨u, rfl⟩
    refine ⟨rfl, rfl, rfl, rfl, rfl, ⟨s, rfl, ?_⟩⟩
    simp [videoFor, hu]

/-- C9, witness: evaluated on the spec's worked example's video
attachment. -/
theorem video_attachment_consistent_witness :
    (videoFor exSpec sensorBoth).uid = exSpec.id ∧
    (videoFor exSpec sensorBoth).connection.uid = exSpec.id ∧
    (videoFor exSpec sensorBoth).connection.address = (videoFor exSpec sensorBoth).url ∧
    (videoFor exSpec sensorBoth).sensor = exSpec.callSign ++ "-camera" ∧
    (videoFor exSpec sensorBoth).connection.«alias» = exSpec.callSign ∧
    ∃ s, exSpec.sensors.find? (fun t => truthyStr t.rtsp_url) = some s ∧
      s.rtsp_url = some (videoFor exSpec sensorBoth).url :=
  video_attachment_consistent exSpec (videoFor exSpec sensorBoth) rfl

/-- C5: `calculateBearing` is exactly the formula
`atan2 (sin dLon * cos lat2) (cos lat1 * sin lat2 - sin lat1 * cos lat2 * cos dLon)`
converted to degrees and normalized by `(bearing + 360) % 360`; the result
always lies in the half-open range `[0, 360)`, and on identical input points
it is exactly `0`. -/
theorem calculateBearing_spec (lat1 lon1 lat2 lon2 : ℝ) :
    calculateBearing lat1 lon1 lat2 lon2 =
      jsRem (atan2 (Real.sin ((lon2 - lon1) * π / 180) * Real.cos (lat2 * π / 180))
        (Real.cos (lat1 * π / 180) * Real.sin (lat2 * π / 180) -
          Real.sin (lat1 * π / 180) * Real.cos (lat2 * π / 180) *
            Real.cos ((lon2 - lon1) * π / 180)) * 180 / π + 360) 360 ∧
    0 ≤ calculateBearing lat1 lon1 lat2 lon2 ∧
    calculateBearing lat1 lon1 lat2 lon2 < 360 ∧
    calculateBearing lat1 lon1 lat1 lon1 = 0 :=
  ⟨rfl, (calculateBearing_mem_Ico lat1 lon1 lat2 lon2).1,
   (calculateBearing_mem_Ico lat1 lon1 lat2 lon2).2,
   calculateBearing_self lat1 lon1⟩

/-- C6: `calculateDistance` is the Haversine distance with mean Earth radius
6371000 m in the two-argument arctangent form; it is symmetric in its two
points and returns `0` on identical points. -/
theorem calculateDistance_spec (lat1 lon1 lat2 lon2 : ℝ) :
    calculateDistance lat1 lon1 lat2 lon2 =
      6371000 * (2 * atan2
        (Real.sqrt (Real.sin ((lat2 - lat1) * π / 180 / 2) ^ 2 +
          Real.cos (lat1 * π / 180) * Real.cos (lat2 * π / 180) *
            Real.sin ((lon2 - lon1) * π / 180 / 2) ^ 2))
        (Real.sqrt (1 - (Real.sin ((lat2 - lat1) * π / 180 / 2) ^ 2 +
          Real.cos (lat1 * π / 180) * Real.cos (lat2 * π / 180) *
            Real.sin ((lon2 - lon1) * π / 180 / 2) ^ 2)))) ∧
    calculateDistance lat1 lon1 lat2 lon2 = calculateDistance lat2 lon2 lat1 lon1 ∧
    calculateDistance lat1 lon1 lat1 lon1 = 0 :=
  ⟨rfl, calculateDistance_symm lat1 lon1 lat2 lon2, calculateDistance_self lat1 lon1⟩

/-- C10: the i-th output feature is a pure function of the i-th input record
alone: indexing the output equals mapping the transformer over the indexed
input, so two batches agreeing at position i produce the same feature at
position i. -/
theorem transform_is_record_local :
    (∀ (records : List DroneSenseLocation) (i : ℕ),
      (buildFeatures records)[i]? = records[i]?.map transformRecord) ∧
    ∀ (l1 l2 : List DroneSenseLocation) (i : ℕ), l1[i]? = l2[i]? →
      (buildFeatures l1)[i]? = (buildFeatures l2)[i]? := by
  have key : ∀ (records : List DroneSenseLocation) (i : ℕ),
      (buildFeatures records)[i]? = records[i]?.map transformRecord := by
    intro records i
    rw [buildFeatures_eq_map, List.getElem?_map]
  exact ⟨key, fun l1 l2 i h => by rw [key, key, h]⟩

/-- C10, witness: two different batches sharing the record at position 0
produce the same feature at position 0. -/
theorem transform_is_record_local_witness :
    (buildFeatures [exRtspOnly])[0]? = (buildFeatures [exRtspOnly, exSpec])[0]? :=
  transform_is_record_local.2 [exRtspOnly] [exRtspOnly, exSpec] 0 rfl

end DroneSense
